import Mathlib

/-
Verification development for the hotel-vms-backend repository.

The repository ships three near-identical Express/PostgreSQL services:
  * `src/server.js`                      — the "tRPC-compatible" service (variant A below,
                                           definitions named `visitors_*`, `selfCheckIn_submit`,
                                           `settings_get`);
  * a "full backend" service embedded in `src/README.md` (lines 66-977; variant B below,
    definitions named `fb_*`: it adds `visitors.forceCheckOut`, a QR-token
    `selfCheckIn.checkOut`, consent validation on submit, and `errorLog.resolve`);
  * a minimal self-check-in service with an in-memory fallback store, also embedded in
    `src/README.md` (lines 978-1260; variant C below, definitions named `mem_*`).

Shallow-embedding conventions, chosen to mirror the SQL tables and handlers:
  * SQL timestamps are `Nat` (milliseconds); `NOW()` / `Date.now()` become an explicit `now`
    argument.  A `clock` field on the store records the time of the last executed statement;
    monotonicity of `NOW()` is the side condition `clock ≤ now` on reachability steps.
  * Nullable columns are `Option`; `NOT NULL` columns are plain values, and an INSERT that
    would write NULL into a `NOT NULL` column is modelled as the thrown-and-caught error
    path of the handler (the handler returns a failure payload and the statement has no
    effect).  The `UNIQUE` constraint on `visitor_records.record_id` is modelled the same
    way: an INSERT whose record_id is already present fails.
  * `VARCHAR CHECK (... IN (...))` enumeration constraints are not modelled; those column
    values are opaque strings here (no claim depends on them).
  * A JS input object is a structure of `Option` fields (`none` = field absent/undefined).
    The JS distinction between an absent field and a field explicitly set to `null` is not
    modelled (both are `none`); likewise `x || d` on a string input is modelled as
    `Option.getD` (the source's treatment of the empty string as falsy is kept only where
    a claim touches it, namely in `jsOrDefault` for settings).
  * `Math.random().toString(36).substring(2, 8)` becomes an explicit `rand : String`
    argument; `Date.now()` the `now` argument.
  * Audit rows keep the inserted columns (record_id, user_id, action, details); their
    `timestamp DEFAULT NOW()` column is not needed by any claim and is omitted.
  * Handler responses are structures carrying exactly the JSON fields the claims inspect
    (`success`, `error`, `recordId`, ...); the verbatim Thai error strings are kept.
-/

namespace HotelVMS

/-- A row of the `visitor_records` table (shared by variants A and B).
`id` is the SERIAL primary key, `record_id` the externally visible identifier. -/
structure VisitorRecord where
  id : Nat
  record_id : String
  photo_uri : Option String
  full_name : String
  type : Option String
  id_number : Option String
  phone : Option String
  company : Option String
  visitor_card_photo_uri : Option String
  id_card_photo_uri : Option String
  purpose : Option String
  access_area : Option String
  notes : Option String
  vehicle_plate : Option String
  check_in_time : Nat
  check_out_time : Option Nat
  status : String
  recorded_by : String
  consent_type : Option String
  consent_signature : Option String
  qr_code : Option String
  qr_expiry : Option Nat
  updated_at : Nat
deriving DecidableEq

/-- A row of the `audit_logs` table: `record_id` is nullable, `user_id` is NOT NULL. -/
structure AuditEntry where
  record_id : Option String
  user_id : String
  action : String
  details : String
deriving DecidableEq

/-- The durable store shared by the visitor endpoints: the `visitor_records` table, the
`audit_logs` table, the next SERIAL id, and the time of the last executed statement. -/
structure DB where
  next_id : Nat
  visitors : List VisitorRecord
  audit : List AuditEntry
  clock : Nat
deriving DecidableEq

/-- The freshly initialised database (empty tables). -/
def DB.init : DB := ⟨1, [], [], 0⟩

/-! ### Base64 and record-id generation helpers

`selfCheckIn.submit` builds its QR payload from
`Buffer.from(recordId).toString('base64')`; the generated record ids are ASCII
(`SELF-<digits>-<base36>`), so UTF-8 bytes coincide with the code points. -/

def base64Alphabet : List Char :=
  ("ABCDEFGHIJKLMNOPQRSTUVWXYZabcdefghijklmnopqrstuvwxyz0123456789+/").toList

def b64Char (n : Nat) : Char := base64Alphabet.getD n '='

def b64Encode : List Nat → List Char
  | [] => []
  | [b1] => [b64Char (b1 / 4), b64Char (b1 % 4 * 16), '=', '=']
  | [b1, b2] => [b64Char (b1 / 4), b64Char (b1 % 4 * 16 + b2 / 16), b64Char (b2 % 16 * 4), '=']
  | b1 :: b2 :: b3 :: rest =>
      b64Char (b1 / 4) :: b64Char (b1 % 4 * 16 + b2 / 16) ::
        b64Char (b2 % 16 * 4 + b3 / 64) :: b64Char (b3 % 64) :: b64Encode rest

/-- UTF-8 bytes of an ASCII string (all strings fed to `b64OfString` here are ASCII). -/
def asciiBytes (s : String) : List Nat := s.toList.map Char.toNat

def b64OfString (s : String) : String := String.mk (b64Encode (asciiBytes s))

/-- `SELF-${timestamp}-${randomSuffix}` — the record id built by every self-check-in
submit handler (server.js line 592, README lines 630 and 1032). -/
def selfRecordId (now : Nat) (rand : String) : String :=
  ("SELF-") ++ toString now ++ ("-") ++ rand

/-! ### Variant A: `src/server.js` visitor endpoints -/

/-- Input of `visitors.checkIn` (server.js lines 432-436). -/
structure CheckInInput where
  recordId : Option String
  photoUri : Option String
  fullName : Option String
  type : Option String
  idNumber : Option String
  phone : Option String
  company : Option String
  visitorCardPhotoUri : Option String
  idCardPhotoUri : Option String
  purpose : Option String
  accessArea : Option String
  notes : Option String
  vehiclePlate : Option String
  recordedBy : Option String
  consentType : Option String
  consentSignature : Option String
  qrCode : Option String
  qrExpiry : Option Nat
deriving DecidableEq

/-- `visitors.checkIn` (server.js lines 429-461): INSERT with status 'IN' (check_out_time
stays NULL), then one CHECK_IN audit row.  The INSERT throws — and the handler reports
failure without touching either table — when record_id, full_name or recorded_by would be
NULL, or when record_id is already taken (UNIQUE). -/
def visitors_checkIn (db : DB) (inp : CheckInInput) (now : Nat) : DB × Bool :=
  match inp.recordId, inp.fullName, inp.recordedBy with
  | some rid, some name, some rb =>
      if db.visitors.any (fun r => decide (r.record_id = rid)) then
        ({ db with clock := now }, false)
      else
        let r : VisitorRecord :=
          { id := db.next_id, record_id := rid, photo_uri := inp.photoUri, full_name := name,
            type := some (inp.type.getD ("visitor")), id_number := inp.idNumber,
            phone := inp.phone, company := inp.company,
            visitor_card_photo_uri := inp.visitorCardPhotoUri,
            id_card_photo_uri := inp.idCardPhotoUri, purpose := inp.purpose,
            access_area := inp.accessArea, notes := inp.notes,
            vehicle_plate := inp.vehiclePlate, check_in_time := now, check_out_time := none,
            status := ("IN"), recorded_by := rb,
            consent_type := some (inp.consentType.getD ("checkbox")),
            consent_signature := inp.consentSignature, qr_code := inp.qrCode,
            qr_expiry := inp.qrExpiry, updated_at := now }
        ({ db with
            next_id := db.next_id + 1, visitors := db.visitors ++ [r],
            audit := db.audit ++ [⟨some rid, rb, ("CHECK_IN"), name ++ (" checked in")⟩],
            clock := now }, true)
  | _, _, _ => ({ db with clock := now }, false)

/-- `visitors.checkOut` (server.js lines 464-484): one unconditional
`UPDATE ... SET status='OUT', check_out_time=NOW() WHERE record_id=$1`, then one CHECK_OUT
audit row.  The audit INSERT throws when userId is NULL (`user_id` is NOT NULL); the UPDATE
has already committed by then, so the state change survives the reported failure. -/
def visitors_checkOut (db : DB) (recordId userId : Option String) (now : Nat) : DB × Bool :=
  let vs := db.visitors.map (fun r =>
    if some r.record_id = recordId then
      { r with status := ("OUT"), check_out_time := some now }
    else r)
  match userId with
  | some uid =>
      ({ db with
          visitors := vs, clock := now,
          audit := db.audit ++ [⟨recordId, uid, ("CHECK_OUT"), ("Visitor checked out")⟩] },
       true)
  | none => ({ db with visitors := vs, clock := now }, false)

/-- Input of `visitors.update` (server.js lines 490-502): the nine entries of `fieldMap`
plus the identifying recordId and acting userId. -/
structure UpdateInput where
  recordId : Option String
  userId : Option String
  fullName : Option String
  idNumber : Option String
  phone : Option String
  company : Option String
  purpose : Option String
  accessArea : Option String
  notes : Option String
  vehiclePlate : Option String
  type : Option String
deriving DecidableEq

/-- `updates.length > 0` (server.js line 515): at least one `fieldMap` field was supplied. -/
def UpdateInput.hasUpdates (inp : UpdateInput) : Bool :=
  inp.fullName.isSome || inp.idNumber.isSome || inp.phone.isSome || inp.company.isSome ||
    inp.purpose.isSome || inp.accessArea.isSome || inp.notes.isSome ||
    inp.vehiclePlate.isSome || inp.type.isSome

/-- The row produced by variant A's `UPDATE visitor_records SET <provided fields>,
updated_at = NOW()` on the matching row. -/
def applyUpdate (inp : UpdateInput) (now : Nat) (r : VisitorRecord) : VisitorRecord :=
  { r with
    full_name := inp.fullName.getD r.full_name,
    id_number := if inp.idNumber.isSome then inp.idNumber else r.id_number,
    phone := if inp.phone.isSome then inp.phone else r.phone,
    company := if inp.company.isSome then inp.company else r.company,
    purpose := if inp.purpose.isSome then inp.purpose else r.purpose,
    access_area := if inp.accessArea.isSome then inp.accessArea else r.access_area,
    notes := if inp.notes.isSome then inp.notes else r.notes,
    vehicle_plate := if inp.vehiclePlate.isSome then inp.vehiclePlate else r.vehicle_plate,
    type := if inp.type.isSome then inp.type else r.type,
    updated_at := now }

/-- `visitors.update` (server.js lines 487-533): when at least one `fieldMap` field is
present, UPDATE the matching row and append one EDIT_RECORD audit row; when none is, no
statement runs at all and the handler still answers success.  As in `visitors_checkOut`,
a NULL userId makes the audit INSERT throw after the UPDATE has committed. -/
def visitors_update (db : DB) (inp : UpdateInput) (now : Nat) : DB × Bool :=
  if inp.hasUpdates then
    let vs := db.visitors.map (fun r =>
      if some r.record_id = inp.recordId then applyUpdate inp now r else r)
    match inp.userId with
    | some uid =>
        ({ db with
            visitors := vs, clock := now,
            audit := db.audit ++ [⟨inp.recordId, uid, ("EDIT_RECORD"), ("Record updated")⟩] },
         true)
    | none => ({ db with visitors := vs, clock := now }, false)
  else
    ({ db with clock := now }, true)

/-- `visitors.delete` (server.js lines 536-553): DELETE by record_id, then one
DELETE_RECORD audit row (which throws on NULL userId, after the DELETE committed). -/
def visitors_delete (db : DB) (recordId userId : Option String) : DB × Bool :=
  let vs := db.visitors.filter (fun r => decide (¬ some r.record_id = recordId))
  match userId with
  | some uid =>
      ({ db with
          visitors := vs,
          audit := db.audit ++ [⟨recordId, uid, ("DELETE_RECORD"), ("Record deleted")⟩] },
       true)
  | none => ({ db with visitors := vs }, false)

/-- Input of variant A's `selfCheckIn.submit` (server.js lines 575-579).  There is no
recordId field: the handler generates the record id itself. -/
structure SubmitInput where
  fullName : Option String
  type : Option String
  idNumber : Option String
  phone : Option String
  company : Option String
  purpose : Option String
  accessArea : Option String
  notes : Option String
  photoData : Option String
  lockerNumber : Option String
  consentAccepted : Option Bool
  visitorType : Option String
deriving DecidableEq

/-- Response of the submit handlers (fields the claims inspect). -/
structure SubmitResp where
  success : Bool
  recordId : Option String
  error : Option String
  qrCode : Option String
  checkInTime : Option Nat
deriving DecidableEq

/-- Variant A `selfCheckIn.submit` (server.js lines 572-629).  Validates only `fullName`
(the destructured `consentAccepted` is never used); generates
`SELF-${Date.now()}-${randomSuffix}` and the `VMS:...` QR payload; inserts the record with
status 'IN' and a 24h expiry; appends one SELF_CHECK_IN audit row.  The `type = 'visitor'`
destructuring default makes the `type || visitorType || 'visitor'` fallback resolve to
`type` whenever it was supplied and to 'visitor' otherwise. -/
def selfCheckIn_submit (db : DB) (inp : SubmitInput) (now : Nat) (rand : String) :
    DB × SubmitResp :=
  match inp.fullName with
  | none =>
      ({ db with clock := now },
       ⟨false, none, some ("กรุณากรอกชื่อ-นามสกุล"), none, none⟩)
  | some name =>
      let rid := selfRecordId now rand
      let qrData := ("VMS:") ++ rid ++ (":") ++ (b64OfString rid).take 12 ++ (":") ++
        toString (now + 86400000)
      if db.visitors.any (fun r => decide (r.record_id = rid)) then
        ({ db with clock := now },
         ⟨false, none, some ("เกิดข้อผิดพลาดในการลงทะเบียน"), none, none⟩)
      else
        let r : VisitorRecord :=
          { id := db.next_id, record_id := rid, photo_uri := inp.photoData,
            full_name := name, type := some (inp.type.getD ("visitor")),
            id_number := inp.idNumber, phone := inp.phone, company := inp.company,
            visitor_card_photo_uri := none, id_card_photo_uri := none,
            purpose := inp.purpose, access_area := inp.accessArea, notes := inp.notes,
            vehicle_plate := inp.lockerNumber, check_in_time := now, check_out_time := none,
            status := ("IN"), recorded_by := ("self-checkin"),
            consent_type := some ("checkbox"), consent_signature := none,
            qr_code := some qrData, qr_expiry := some (now + 86400000), updated_at := now }
        ({ db with
            next_id := db.next_id + 1, visitors := db.visitors ++ [r],
            audit := db.audit ++
              [⟨some rid, ("self-checkin"), ("SELF_CHECK_IN"),
                name ++ (" self checked in via web")⟩],
            clock := now },
         ⟨true, some rid, none, some qrData, some now⟩)

/-- `visitors.byId` (server.js lines 385-426): SELECT by record_id; an empty result set and
a thrown query error both answer `trpcResponse(null)`.  The first argument is the query
outcome: `none` models a failed store query (the catch branch), `some rows` a successful
one.  The camelCase projection built from the row keeps every column, so the row itself
stands for the response body. -/
def visitors_byId (q : Option (List VisitorRecord)) (recordId : Option String) :
    Option VisitorRecord :=
  match q with
  | none => none
  | some rows =>
      match rows.find? (fun r => decide (some r.record_id = recordId)) with
      | none => none
      | some r => some r

/-! ### Variant B: the full-backend service embedded in `src/README.md` (lines 66-977) -/

/-- `visitors.forceCheckOut` (README lines 528-550): the same unconditional
`UPDATE ... SET status='OUT', check_out_time=CURRENT_TIMESTAMP` as checkOut, then a
FORCE_CHECK_OUT audit row whose details carry the visitor's name (looked up after the
update) and the supplied reason.  A NULL userId makes the audit INSERT throw after the
UPDATE committed. -/
def fb_forceCheckOut (db : DB) (recordId userId reason : Option String) (now : Nat) :
    DB × Bool :=
  let vs := db.visitors.map (fun r =>
    if some r.record_id = recordId then
      { r with status := ("OUT"), check_out_time := some now }
    else r)
  let name := ((vs.find? (fun r => decide (some r.record_id = recordId))).map
    (fun r => r.full_name)).getD ("Unknown")
  match userId with
  | some uid =>
      ({ db with
          visitors := vs, clock := now,
          audit := db.audit ++
            [⟨recordId, uid, ("FORCE_CHECK_OUT"),
              name ++ (" force checked out. Reason: ") ++ reason.getD ("N/A")⟩] },
       true)
  | none => ({ db with visitors := vs, clock := now }, false)

/-- Response of the QR-token checkout handler (README lines 693-728). -/
structure TokenCheckOutResp where
  success : Bool
  error : Option String
  fullName : Option String
  checkOutTime : Option Nat
deriving DecidableEq

/-- `WHERE qr_code = $1`: a row matches only when the parameter is non-NULL and equal to
the row's (non-NULL) qr_code. -/
def qrMatch (qrCode : Option String) (r : VisitorRecord) : Bool :=
  qrCode.isSome && decide (r.qr_code = qrCode)

/-- Variant B `selfCheckIn.checkOut` (README lines 693-728), the token-based self-service
checkout: SELECT by qr_code; no row answers a not-found failure; a row already OUT answers
an already-checked-out failure before any UPDATE runs; otherwise the matching rows are
checked out and one CHECK_OUT audit row is appended under the fixed actor
'self-checkout'. -/
def fb_selfCheckIn_checkOut (db : DB) (qrCode : Option String) (now : Nat) :
    DB × TokenCheckOutResp :=
  match db.visitors.find? (qrMatch qrCode) with
  | none => (db, ⟨false, some ("ไม่พบข้อมูลการลงทะเบียน"), none, none⟩)
  | some record =>
      if record.status = ("OUT") then
        (db, ⟨false, some ("ท่านได้ทำการ Check-out ไปแล้ว"), none, none⟩)
      else
        let vs := db.visitors.map (fun r =>
          if qrMatch qrCode r then
            { r with status := ("OUT"), check_out_time := some now }
          else r)
        ({ db with
            visitors := vs, clock := now,
            audit := db.audit ++
              [⟨some record.record_id, ("self-checkout"), ("CHECK_OUT"),
                record.full_name ++ (" self checked out via QR")⟩] },
         ⟨true, none, some record.full_name, some now⟩)

/-- Input of variant B's `selfCheckIn.submit` (README line 621). -/
structure FbSubmitInput where
  fullName : Option String
  type : Option String
  idNumber : Option String
  phone : Option String
  company : Option String
  purpose : Option String
  accessArea : Option String
  notes : Option String
  photoData : Option String
  lockerNumber : Option String
  consentAccepted : Option Bool
deriving DecidableEq

/-- Variant B `selfCheckIn.submit` (README lines 619-671): rejects the submission outright
when `consentAccepted` is falsy (absent or false); a missing fullName then makes the INSERT
throw on its NOT NULL column (caught: failure, no row); otherwise inserts the record
(status via the column default 'IN', photo kept only when it is a data-image URI, QR code
`VMS-<recordId>`, 24h expiry) and appends one SELF_CHECK_IN audit row. -/
def fb_selfCheckIn_submit (db : DB) (inp : FbSubmitInput) (now : Nat) (rand : String) :
    DB × SubmitResp :=
  if inp.consentAccepted ≠ some true then
    ({ db with clock := now },
     ⟨false, none, some ("กรุณายอมรับข้อตกลงการเก็บข้อมูล"), none, none⟩)
  else
    match inp.fullName with
    | none =>
        ({ db with clock := now },
         ⟨false, none, some ("เกิดข้อผิดพลาดในการลงทะเบียน"), none, none⟩)
    | some name =>
        let rid := selfRecordId now rand
        let qr := ("VMS-") ++ rid
        let photoUri := match inp.photoData with
          | some p => if p.startsWith ("data:image/") then some p else none
          | none => none
        if db.visitors.any (fun r => decide (r.record_id = rid)) then
          ({ db with clock := now },
           ⟨false, none, some ("เกิดข้อผิดพลาดในการลงทะเบียน"), none, none⟩)
        else
          let r : VisitorRecord :=
            { id := db.next_id, record_id := rid, photo_uri := photoUri, full_name := name,
              type := inp.type, id_number := inp.idNumber, phone := inp.phone,
              company := inp.company, visitor_card_photo_uri := none,
              id_card_photo_uri := none, purpose := inp.purpose,
              access_area := inp.accessArea, notes := inp.notes,
              vehicle_plate := inp.lockerNumber, check_in_time := now,
              check_out_time := none, status := ("IN"), recorded_by := ("self-checkin"),
              consent_type := some ("checkbox"), consent_signature := none,
              qr_code := some qr, qr_expiry := some (now + 86400000), updated_at := now }
          ({ db with
              next_id := db.next_id + 1, visitors := db.visitors ++ [r],
              audit := db.audit ++
                [⟨some rid, ("self-checkin"), ("SELF_CHECK_IN"),
                  name ++ (" self checked in via web")⟩],
              clock := now },
           ⟨true, some rid, none, some qr, some now⟩)

/-- Input of variant B's `visitors.update` (README line 554): identified by the SERIAL id
(`dbId`), with COALESCE semantics on nine columns. -/
structure FbUpdateInput where
  dbId : Option Nat
  fullName : Option String
  type : Option String
  idNumber : Option String
  phone : Option String
  company : Option String
  purpose : Option String
  accessArea : Option String
  notes : Option String
  vehiclePlate : Option String
  userId : Option String
deriving DecidableEq

/-- The row produced by variant B's `UPDATE ... SET col = COALESCE($i, col)` on the
matching row: a NULL parameter keeps the stored value. -/
def fbCoalesce (inp : FbUpdateInput) (now : Nat) (r : VisitorRecord) : VisitorRecord :=
  { r with
    full_name := inp.fullName.getD r.full_name,
    type := if inp.type.isSome then inp.type else r.type,
    id_number := if inp.idNumber.isSome then inp.idNumber else r.id_number,
    phone := if inp.phone.isSome then inp.phone else r.phone,
    company := if inp.company.isSome then inp.company else r.company,
    purpose := if inp.purpose.isSome then inp.purpose else r.purpose,
    access_area := if inp.accessArea.isSome then inp.accessArea else r.access_area,
    notes := if inp.notes.isSome then inp.notes else r.notes,
    vehicle_plate := if inp.vehiclePlate.isSome then inp.vehiclePlate else r.vehicle_plate,
    updated_at := now }

/-- Variant B `visitors.update` (README lines 552-581): one COALESCE update on the row with
the given SERIAL id, then one EDIT_RECORD audit row that carries no record_id (the INSERT
lists only user_id, action, details) under `userId || 'system'`. -/
def fb_visitors_update (db : DB) (inp : FbUpdateInput) (now : Nat) : DB × Bool :=
  let vs := db.visitors.map (fun r =>
    if some r.id = inp.dbId then fbCoalesce inp now r else r)
  let details := match inp.dbId with
    | some n => ("Record ID ") ++ toString n ++ (" updated")
    | none => ("Record ID undefined updated")
  ({ db with
      visitors := vs, clock := now,
      audit := db.audit ++ [⟨none, inp.userId.getD ("system"), ("EDIT_RECORD"), details⟩] },
   true)

/-- Variant B `visitors.delete` (README lines 583-602): captures the visitor's name, hard
DELETEs by SERIAL id, then appends one DELETE_RECORD audit row that carries no record_id,
under `userId || 'system'`. -/
def fb_visitors_delete (db : DB) (dbId : Option Nat) (userId : Option String) : DB × Bool :=
  let name := ((db.visitors.find? (fun r => decide (some r.id = dbId))).map
    (fun r => r.full_name)).getD ("Unknown")
  ({ db with
      visitors := db.visitors.filter (fun r => decide (¬ some r.id = dbId)),
      audit := db.audit ++
        [⟨none, userId.getD ("system"), ("DELETE_RECORD"),
          ("Record ") ++ name ++ (" deleted")⟩] },
   true)

/-! ### Settings (`settings.get`, server.js lines 667-688 and README lines 764-781)

Both variants read every `app_settings` row into a flat object and answer
`parseInt(settings.retentionDays || '90')` for retentionDays.  `jsParseInt` embeds the
semantics of a no-radix JavaScript `parseInt`: skip whitespace, optional sign, `0x`/`0X`
hex prefix, then the longest run of digits; no digit at all gives NaN, modelled as
`none`. -/

def decDigitVal (c : Char) : Option Nat :=
  if '0' ≤ c ∧ c ≤ '9' then some (c.toNat - 48) else none

def hexDigitVal (c : Char) : Option Nat :=
  if '0' ≤ c ∧ c ≤ '9' then some (c.toNat - 48)
  else if 'a' ≤ c ∧ c ≤ 'f' then some (c.toNat - 87)
  else if 'A' ≤ c ∧ c ≤ 'F' then some (c.toNat - 55)
  else none

/-- Accumulate the value of the longest leading digit run; `none` when there is none. -/
def leadingVal (base : Nat) (dval : Char → Option Nat) :
    List Char → Option Nat → Option Nat
  | [], acc => acc
  | c :: cs, acc =>
      match dval c with
      | some d => leadingVal base dval cs (some ((acc.getD 0) * base + d))
      | none => acc

/-- The unsigned part of `parseInt`: a `0x`/`0X` head switches to hexadecimal. -/
def leadingNat : List Char → Option Nat
  | '0' :: 'x' :: rest => leadingVal 16 hexDigitVal rest none
  | '0' :: 'X' :: rest => leadingVal 16 hexDigitVal rest none
  | cs => leadingVal 10 decDigitVal cs none

/-- JavaScript `parseInt(s)` (no radix argument); `none` models NaN. -/
def jsParseInt (s : String) : Option Int :=
  let cs := s.toList.dropWhile (fun c =>
    c == ' ' || c == '\t' || c == '\n' || c == '\r' || c == '\x0b' || c == '\x0c')
  match cs with
  | '-' :: rest => (leadingNat rest).map (fun n => -(n : Int))
  | '+' :: rest => (leadingNat rest).map (fun n => (n : Int))
  | _ => (leadingNat cs).map (fun n => (n : Int))

/-- `settings[row.key]` after the handler's forEach over all rows: the key column is
UNIQUE, and a later row would overwrite an earlier one, hence last-wins lookup. -/
def settingsLookup (rows : List (String × String)) (k : String) : Option String :=
  (rows.reverse.find? (fun p => decide (p.1 = k))).map (fun p => p.2)

/-- JavaScript `v || d` on an optional string: the empty string is falsy. -/
def jsOrDefault (v : Option String) (d : String) : String :=
  match v with
  | some s => if s = ("") then d else s
  | none => d

/-- The settings payload (retentionDays is `Option Int`: `none` models the NaN that
`parseInt` yields on an unparseable stored value, serialised as null). -/
structure SettingsResp where
  consentText : String
  retentionDays : Option Int
  notificationTime : String
deriving DecidableEq

/-- `settings.get` (server.js lines 667-688): reads all rows, then applies the `||`
defaults and `parseInt` coercion.  Total: the handler never throws on any stored value. -/
def settings_get (rows : List (String × String)) : SettingsResp :=
  { consentText := jsOrDefault (settingsLookup rows ("consentText"))
      ("ข้าพเจ้ายินยอมให้เก็บข้อมูลส่วนบุคคลเพื่อวัตถุประสงค์ด้านความปลอดภัย"),
    retentionDays := jsParseInt (jsOrDefault (settingsLookup rows ("retentionDays")) ("90")),
    notificationTime := jsOrDefault (settingsLookup rows ("notificationTime")) ("00:00") }

/-! ### Error log (`errorLog.resolve`, README lines 950-964) -/

/-- A row of the `error_logs` table. -/
structure ErrorLogEntry where
  eid : Nat
  etype : String
  message : String
  source : String
  metadata : Option String
  resolved : Bool
  resolved_at : Option Nat
  resolved_by : Option String
deriving DecidableEq

/-- `errorLog.resolve` (README lines 950-964): one unconditional
`UPDATE error_logs SET resolved = true, resolved_at = CURRENT_TIMESTAMP, resolved_by = $1
WHERE id = $2`; the handler then always answers success (resolved_by is nullable, so no
constraint can fire). -/
def errorLog_resolve (logs : List ErrorLogEntry) (id : Option Nat)
    (resolvedBy : Option String) (now : Nat) : List ErrorLogEntry × Bool :=
  (logs.map (fun e =>
     if some e.eid = id then
       { e with resolved := true, resolved_at := some now, resolved_by := resolvedBy }
     else e),
   true)

/-! ### Variant C: the in-memory-fallback service embedded in `src/README.md`
(lines 978-1260), restricted to its in-memory branch (`DATABASE_URL` unset). -/

/-- An element of the `inMemoryRecords` array, as pushed by its submit handler
(README lines 1091-1106); `checkOutTime` is the property added later by the checkout
handler, absent (`none`) on a fresh record. -/
structure CRec where
  recordId : String
  fullName : String
  type : String
  idNumber : String
  phone : String
  company : Option String
  purpose : Option String
  lockerNumber : Option String
  department : Option String
  workArea : Option String
  qrCode : String
  qrExpiry : Nat
  checkInTime : Nat
  status : String
  checkOutTime : Option Nat
deriving DecidableEq

/-- Input of variant C's submit handler (README line 1061). -/
structure MemSubmitInput where
  fullName : Option String
  type : Option String
  idNumber : Option String
  phone : Option String
  company : Option String
  purpose : Option String
  lockerNumber : Option String
  department : Option String
  workArea : Option String
deriving DecidableEq

/-- Response of variant C's handlers. -/
structure MemResp where
  success : Bool
  recordId : Option String
  qrCode : Option String
  error : Option String
deriving DecidableEq

/-- JavaScript truthiness of an optional string field: present and non-empty. -/
def jsTruthy (v : Option String) : Bool :=
  match v with
  | some s => decide (¬ s = (""))
  | none => false

/-- `generateQRCode` (README lines 1036-1044): 24h expiry,
`VMS:<recordId>:<base64(recordId + '-' + expiry).slice(0,8)>:<expiry>`. -/
def mem_generateQRCode (recordId : String) (now : Nat) : String × Nat :=
  let expiry := now + 86400000
  let signature := (b64OfString (recordId ++ ("-") ++ toString expiry)).take 8
  (("VMS:") ++ recordId ++ (":") ++ signature ++ (":") ++ toString expiry, expiry)

/-- Variant C `selfCheckIn.submit`, in-memory branch (README lines 1047-1142): requires
fullName, type, idNumber and phone to be truthy, then pushes a `checked_in` record. -/
def mem_selfCheckIn_submit (records : List CRec) (inp : MemSubmitInput) (now : Nat)
    (rand : String) : List CRec × MemResp :=
  if jsTruthy inp.fullName && jsTruthy inp.type &&
      jsTruthy inp.idNumber && jsTruthy inp.phone then
    match inp.fullName, inp.type, inp.idNumber, inp.phone with
    | some name, some ty, some idn, some ph =>
        let rid := selfRecordId now rand
        let qe := mem_generateQRCode rid now
        (records ++
           [{ recordId := rid, fullName := name, type := ty, idNumber := idn, phone := ph,
              company := inp.company, purpose := inp.purpose,
              lockerNumber := inp.lockerNumber, department := inp.department,
              workArea := inp.workArea, qrCode := qe.1, qrExpiry := qe.2,
              checkInTime := now, status := ("checked_in"), checkOutTime := none }],
         ⟨true, some rid, some qe.1, none⟩)
    | _, _, _, _ => (records, ⟨false, none, none, some ("กรุณากรอกข้อมูลให้ครบถ้วน")⟩)
  else
    (records, ⟨false, none, none, some ("กรุณากรอกข้อมูลให้ครบถ้วน")⟩)

/-- Variant C `selfCheckIn.checkOut`, in-memory branch (README lines 1181-1229): `find` the
first record with the given recordId and, when present, mutate it to `checked_out` with a
fresh checkOutTime; the handler answers success whether or not anything matched, and never
inspects the record's prior status. -/
def mem_selfCheckIn_checkOut : List CRec → Option String → Nat → List CRec × Bool
  | [], _, _ => ([], true)
  | r :: rest, recordId, now =>
      if some r.recordId = recordId then
        ({ r with status := ("checked_out"), checkOutTime := some now } :: rest, true)
      else
        let res := mem_selfCheckIn_checkOut rest recordId now
        (r :: res.1, res.2)

/-! ### Reachable stores and the lifecycle invariants

A store is reachable when it arises from the freshly initialised database by any sequence
of the mutating visitor operations of the two services (the spec's checkIn, checkOut,
forceCheckOut, checkOutByToken, update, delete, plus the two submit handlers).  The side
condition `db.clock ≤ now` embeds the monotonicity of the database clock: each statement's
`NOW()` is at least the time of the last executed statement. -/

inductive Reachable : DB → Prop where
  | init : Reachable DB.init
  | checkIn (db : DB) (inp : CheckInInput) (now : Nat) :
      Reachable db → db.clock ≤ now → Reachable (visitors_checkIn db inp now).1
  | checkOut (db : DB) (recordId userId : Option String) (now : Nat) :
      Reachable db → db.clock ≤ now → Reachable (visitors_checkOut db recordId userId now).1
  | update (db : DB) (inp : UpdateInput) (now : Nat) :
      Reachable db → db.clock ≤ now → Reachable (visitors_update db inp now).1
  | delete (db : DB) (recordId userId : Option String) :
      Reachable db → Reachable (visitors_delete db recordId userId).1
  | submit (db : DB) (inp : SubmitInput) (now : Nat) (rand : String) :
      Reachable db → db.clock ≤ now → Reachable (selfCheckIn_submit db inp now rand).1
  | fbForceCheckOut (db : DB) (recordId userId reason : Option String) (now : Nat) :
      Reachable db → db.clock ≤ now →
      Reachable (fb_forceCheckOut db recordId userId reason now).1
  | fbTokenCheckOut (db : DB) (qrCode : Option String) (now : Nat) :
      Reachable db → db.clock ≤ now → Reachable (fb_selfCheckIn_checkOut db qrCode now).1
  | fbSubmit (db : DB) (inp : FbSubmitInput) (now : Nat) (rand : String) :
      Reachable db → db.clock ≤ now → Reachable (fb_selfCheckIn_submit db inp now rand).1
  | fbUpdate (db : DB) (inp : FbUpdateInput) (now : Nat) :
      Reachable db → db.clock ≤ now → Reachable (fb_visitors_update db inp now).1
  | fbDelete (db : DB) (dbId : Option Nat) (userId : Option String) :
      Reachable db → Reachable (fb_visitors_delete db dbId userId).1

/-- The record ids currently stored. -/
def recordIds (l : List VisitorRecord) : List String := l.map (fun r => r.record_id)

/-- The checkout-time invariant over a list of rows, relative to the store clock:
check-in times never lie in the future, and an OUT row has a checkout time at or after
its check-in time. -/
def OutInvOn (l : List VisitorRecord) (clk : Nat) : Prop :=
  ∀ r ∈ l, r.check_in_time ≤ clk ∧
    (r.status = ("OUT") → ∃ t, r.check_out_time = some t ∧ r.check_in_time ≤ t)

/-- The two store invariants together: checkout times are consistent and record ids are
pairwise distinct (the UNIQUE constraint). -/
def StoreInv (db : DB) : Prop :=
  OutInvOn db.visitors db.clock ∧ (recordIds db.visitors).Nodup

lemma outInvOn_mono (l : List VisitorRecord) (c1 c2 : Nat) (h12 : c1 ≤ c2)
    (h : OutInvOn l c1) : OutInvOn l c2 := by
  intro r hr
  exact ⟨le_trans (h r hr).1 h12, (h r hr).2⟩

lemma outInvOn_map_checkout {p : VisitorRecord → Prop} [DecidablePred p]
    (l : List VisitorRecord) (c now : Nat) (hle : c ≤ now) (h : OutInvOn l c) :
    OutInvOn (l.map (fun r =>
      if p r then { r with status := ("OUT"), check_out_time := some now } else r)) now := by
  intro r2 hr2
  rcases List.mem_map.1 hr2 with ⟨r, hr, heq⟩
  subst heq
  by_cases hp : p r
  · simp only [if_pos hp]
    exact ⟨le_trans (h r hr).1 hle, fun _ => ⟨now, rfl, le_trans (h r hr).1 hle⟩⟩
  · simp only [if_neg hp]
    exact ⟨le_trans (h r hr).1 hle, (h r hr).2⟩

lemma outInvOn_map_keep (l : List VisitorRecord) (c now : Nat) (hle : c ≤ now)
    (g : VisitorRecord → VisitorRecord)
    (h1 : ∀ r, (g r).check_in_time = r.check_in_time)
    (h2 : ∀ r, (g r).status = r.status)
    (h3 : ∀ r, (g r).check_out_time = r.check_out_time)
    (h : OutInvOn l c) : OutInvOn (l.map g) now := by
  intro r2 hr2
  rcases List.mem_map.1 hr2 with ⟨r, hr, heq⟩
  subst heq
  rw [h1, h2, h3]
  exact ⟨le_trans (h r hr).1 hle, (h r hr).2⟩

lemma outInvOn_append_in (l : List VisitorRecord) (c now : Nat) (hle : c ≤ now)
    (r : VisitorRecord) (hcit : r.check_in_time = now) (hst : r.status = ("IN"))
    (h : OutInvOn l c) : OutInvOn (l ++ [r]) now := by
  intro r2 hr2
  rcases List.mem_append.1 hr2 with hr2 | hr2
  · exact ⟨le_trans (h r2 hr2).1 hle, (h r2 hr2).2⟩
  · rcases List.mem_singleton.1 hr2 with rfl
    refine ⟨le_of_eq hcit, fun hout => absurd (hst ▸ hout) (by decide)⟩

lemma outInvOn_filter (l : List VisitorRecord) (c : Nat) (p : VisitorRecord → Bool)
    (h : OutInvOn l c) : OutInvOn (l.filter p) c := by
  intro r hr
  exact h r (List.mem_of_mem_filter hr)

lemma recordIds_map (l : List VisitorRecord) (g : VisitorRecord → VisitorRecord)
    (hg : ∀ r, (g r).record_id = r.record_id) : recordIds (l.map g) = recordIds l := by
  induction l with
  | nil => rfl
  | cons a l ih =>
      simp only [recordIds, List.map_cons] at ih ⊢
      rw [hg a, ih]

lemma recordIds_append (l : List VisitorRecord) (r : VisitorRecord) :
    recordIds (l ++ [r]) = recordIds l ++ [r.record_id] := by
  simp [recordIds]

lemma nodup_recordIds_concat (l : List VisitorRecord) (r : VisitorRecord)
    (h : (recordIds l).Nodup) (hr : ¬ r.record_id ∈ recordIds l) :
    (recordIds (l ++ [r])).Nodup := by
  rw [recordIds_append]
  simp [List.nodup_append, h, hr]

lemma nodup_recordIds_filter (l : List VisitorRecord) (p : VisitorRecord → Bool)
    (h : (recordIds l).Nodup) : (recordIds (l.filter p)).Nodup :=
  List.Nodup.sublist (List.Sublist.map _ (List.filter_sublist l)) h

/-- The `any`-guard of the insert handlers certifies that the new id is fresh. -/
lemma not_mem_recordIds_of_any_false (l : List VisitorRecord) (rid : String)
    (h : ¬ l.any (fun r => decide (r.record_id = rid)) = true) :
    ¬ rid ∈ recordIds l := by
  intro hmem
  rcases List.mem_map.1 hmem with ⟨r, hr, heq⟩
  exact h (List.any_eq_true.2 ⟨r, hr, by simp [heq]⟩)

lemma nodup_recordIds_map (l : List VisitorRecord) (g : VisitorRecord → VisitorRecord)
    (hg : ∀ r, (g r).record_id = r.record_id) (h : (recordIds l).Nodup) :
    (recordIds (l.map g)).Nodup := by
  rw [recordIds_map l g hg]
  exact h

lemma checkoutMap_record_id {p : VisitorRecord → Prop} [DecidablePred p] (now : Nat)
    (r : VisitorRecord) :
    (if p r then { r with status := ("OUT"), check_out_time := some now } else r).record_id
      = r.record_id := by
  by_cases hc : p r <;> simp [hc]

lemma checkIn_storeInv (db : DB) (inp : CheckInInput) (now : Nat)
    (hle : db.clock ≤ now) (h : StoreInv db) : StoreInv (visitors_checkIn db inp now).1 := by
  rcases h with ⟨hout, hnd⟩
  rcases hrid : inp.recordId with _ | rid <;>
    rcases hname : inp.fullName with _ | name <;>
    rcases hrb : inp.recordedBy with _ | rb <;>
    simp only [visitors_checkIn, hrid, hname, hrb] <;>
    try exact ⟨outInvOn_mono _ _ _ hle hout, hnd⟩
  by_cases hdup : db.visitors.any (fun r => decide (r.record_id = rid)) = true
  · simp only [hdup, if_true]
    exact ⟨outInvOn_mono _ _ _ hle hout, hnd⟩
  · simp only [hdup, if_false, Bool.false_eq_true]
    exact ⟨outInvOn_append_in _ _ _ hle _ rfl rfl hout,
      nodup_recordIds_concat _ _ hnd (not_mem_recordIds_of_any_false _ _ hdup)⟩

lemma checkOut_storeInv (db : DB) (recordId userId : Option String) (now : Nat)
    (hle : db.clock ≤ now) (h : StoreInv db) :
    StoreInv (visitors_checkOut db recordId userId now).1 := by
  rcases h with ⟨hout, hnd⟩
  have hmap := outInvOn_map_checkout (p := fun r => some r.record_id = recordId)
    db.visitors db.clock now hle hout
  have hids := nodup_recordIds_map db.visitors
    (fun r => if some r.record_id = recordId then
      { r with status := ("OUT"), check_out_time := some now } else r)
    (fun r => checkoutMap_record_id (p := fun r2 => some r2.record_id = recordId) now r) hnd
  cases userId <;> exact ⟨hmap, hids⟩

lemma update_storeInv (db : DB) (inp : UpdateInput) (now : Nat)
    (hle : db.clock ≤ now) (h : StoreInv db) : StoreInv (visitors_update db inp now).1 := by
  rcases h with ⟨hout, hnd⟩
  by_cases hu : inp.hasUpdates = true
  · have hmap := outInvOn_map_keep db.visitors db.clock now hle
      (fun r => if some r.record_id = inp.recordId then applyUpdate inp now r else r)
      (fun r => by by_cases hc : some r.record_id = inp.recordId <;> simp [hc, applyUpdate])
      (fun r => by by_cases hc : some r.record_id = inp.recordId <;> simp [hc, applyUpdate])
      (fun r => by by_cases hc : some r.record_id = inp.recordId <;> simp [hc, applyUpdate])
      hout
    have hids := nodup_recordIds_map db.visitors
      (fun r => if some r.record_id = inp.recordId then applyUpdate inp now r else r)
      (fun r => by by_cases hc : some r.record_id = inp.recordId <;> simp [hc, applyUpdate]) hnd
    simp only [visitors_update, hu, if_true]
    cases inp.userId <;> exact ⟨hmap, hids⟩
  · simp only [visitors_update, hu, if_false, Bool.false_eq_true]
    exact ⟨outInvOn_mono _ _ _ hle hout, hnd⟩

lemma delete_storeInv (db : DB) (recordId userId : Option String) (h : StoreInv db) :
    StoreInv (visitors_delete db recordId userId).1 := by
  rcases h with ⟨hout, hnd⟩
  cases userId <;>
    exact ⟨outInvOn_filter _ _ _ hout, nodup_recordIds_filter _ _ hnd⟩

lemma submit_storeInv (db : DB) (inp : SubmitInput) (now : Nat) (rand : String)
    (hle : db.clock ≤ now) (h : StoreInv db) :
    StoreInv (selfCheckIn_submit db inp now rand).1 := by
  rcases h with ⟨hout, hnd⟩
  rcases hname : inp.fullName with _ | name
  · simp only [selfCheckIn_submit, hname]
    exact ⟨outInvOn_mono _ _ _ hle hout, hnd⟩
  · simp only [selfCheckIn_submit, hname]
    by_cases hdup :
        db.visitors.any (fun r => decide (r.record_id = selfRecordId now rand)) = true
    · simp only [hdup, if_true]
      exact ⟨outInvOn_mono _ _ _ hle hout, hnd⟩
    · simp only [hdup, if_false, Bool.false_eq_true]
      exact ⟨outInvOn_append_in _ _ _ hle _ rfl rfl hout,
        nodup_recordIds_concat _ _ hnd (not_mem_recordIds_of_any_false _ _ hdup)⟩

lemma fbForceCheckOut_storeInv (db : DB) (recordId userId reason : Option String) (now : Nat)
    (hle : db.clock ≤ now) (h : StoreInv db) :
    StoreInv (fb_forceCheckOut db recordId userId reason now).1 := by
  rcases h with ⟨hout, hnd⟩
  have hmap := outInvOn_map_checkout (p := fun r => some r.record_id = recordId)
    db.visitors db.clock now hle hout
  have hids := nodup_recordIds_map db.visitors
    (fun r => if some r.record_id = recordId then
      { r with status := ("OUT"), check_out_time := some now } else r)
    (fun r => checkoutMap_record_id (p := fun r2 => some r2.record_id = recordId) now r) hnd
  cases userId <;> exact ⟨hmap, hids⟩

lemma fbTokenCheckOut_storeInv (db : DB) (qrCode : Option String) (now : Nat)
    (hle : db.clock ≤ now) (h : StoreInv db) :
    StoreInv (fb_selfCheckIn_checkOut db qrCode now).1 := by
  rcases h with ⟨hout, hnd⟩
  unfold fb_selfCheckIn_checkOut
  cases hfind : db.visitors.find? (qrMatch qrCode) with
  | none =>
      simp only [hfind]
      exact ⟨hout, hnd⟩
  | some record =>
      simp only [hfind]
      by_cases hst : record.status = ("OUT")
      · simp only [if_pos hst]
        exact ⟨hout, hnd⟩
      · simp only [if_neg hst]
        exact ⟨outInvOn_map_checkout _ _ _ hle hout,
          nodup_recordIds_map db.visitors
            (fun r => if qrMatch qrCode r then
              { r with status := ("OUT"), check_out_time := some now } else r)
            (fun r => checkoutMap_record_id (p := fun r2 => qrMatch qrCode r2 = true) now r)
            hnd⟩

lemma fbSubmit_storeInv (db : DB) (inp : FbSubmitInput) (now : Nat) (rand : String)
    (hle : db.clock ≤ now) (h : StoreInv db) :
    StoreInv (fb_selfCheckIn_submit db inp now rand).1 := by
  rcases h with ⟨hout, hnd⟩
  by_cases hcons : inp.consentAccepted ≠ some true
  · simp only [fb_selfCheckIn_submit, if_pos hcons]
    exact ⟨outInvOn_mono _ _ _ hle hout, hnd⟩
  · simp only [fb_selfCheckIn_submit, if_neg hcons]
    rcases hname : inp.fullName with _ | name
    · simp only [hname]
      exact ⟨outInvOn_mono _ _ _ hle hout, hnd⟩
    · simp only [hname]
      by_cases hdup :
          db.visitors.any (fun r => decide (r.record_id = selfRecordId now rand)) = true
      · simp only [hdup, if_true]
        exact ⟨outInvOn_mono _ _ _ hle hout, hnd⟩
      · simp only [hdup, if_false, Bool.false_eq_true]
        exact ⟨outInvOn_append_in _ _ _ hle _ rfl rfl hout,
          nodup_recordIds_concat _ _ hnd (not_mem_recordIds_of_any_false _ _ hdup)⟩

lemma fbUpdate_storeInv (db : DB) (inp : FbUpdateInput) (now : Nat)
    (hle : db.clock ≤ now) (h : StoreInv db) : StoreInv (fb_visitors_update db inp now).1 := by
  rcases h with ⟨hout, hnd⟩
  exact ⟨outInvOn_map_keep db.visitors db.clock now hle
      (fun r => if some r.id = inp.dbId then fbCoalesce inp now r else r)
      (fun r => by by_cases hc : some r.id = inp.dbId <;> simp [hc, fbCoalesce])
      (fun r => by by_cases hc : some r.id = inp.dbId <;> simp [hc, fbCoalesce])
      (fun r => by by_cases hc : some r.id = inp.dbId <;> simp [hc, fbCoalesce])
      hout,
    nodup_recordIds_map db.visitors
      (fun r => if some r.id = inp.dbId then fbCoalesce inp now r else r)
      (fun r => by by_cases hc : some r.id = inp.dbId <;> simp [hc, fbCoalesce]) hnd⟩

lemma fbDelete_storeInv (db : DB) (dbId : Option Nat) (userId : Option String)
    (h : StoreInv db) : StoreInv (fb_visitors_delete db dbId userId).1 := by
  rcases h with ⟨hout, hnd⟩
  exact ⟨outInvOn_filter _ _ _ hout, nodup_recordIds_filter _ _ hnd⟩

/-- Both store invariants hold at every reachable store. -/
lemma reachable_storeInv (db : DB) (h : Reachable db) : StoreInv db := by
  induction h with
  | init =>
      exact ⟨fun r hr => absurd hr (List.not_mem_nil r), List.nodup_nil⟩
  | checkIn db inp now hr hle ih => exact checkIn_storeInv db inp now hle ih
  | checkOut db recordId userId now hr hle ih => exact checkOut_storeInv db recordId userId now hle ih
  | update db inp now hr hle ih => exact update_storeInv db inp now hle ih
  | delete db recordId userId hr ih => exact delete_storeInv db recordId userId ih
  | submit db inp now rand hr hle ih => exact submit_storeInv db inp now rand hle ih
  | fbForceCheckOut db recordId userId reason now hr hle ih =>
      exact fbForceCheckOut_storeInv db recordId userId reason now hle ih
  | fbTokenCheckOut db qrCode now hr hle ih => exact fbTokenCheckOut_storeInv db qrCode now hle ih
  | fbSubmit db inp now rand hr hle ih => exact fbSubmit_storeInv db inp now rand hle ih
  | fbUpdate db inp now hr hle ih => exact fbUpdate_storeInv db inp now hle ih
  | fbDelete db dbId userId hr ih => exact fbDelete_storeInv db dbId userId ih

/-! ### Concrete data for witnesses and counterexamples -/

/-- A staff check-in as the mobile app sends it (recordId chosen by the caller). -/
def demoCheckIn : CheckInInput :=
  { recordId := some ("REC-1700000000000-ab12cd"), photoUri := none,
    fullName := some ("Jane Doe"), type := none, idNumber := none, phone := none,
    company := none, visitorCardPhotoUri := none, idCardPhotoUri := none, purpose := none,
    accessArea := none, notes := none, vehiclePlate := none, recordedBy := some ("admin"),
    consentType := none, consentSignature := none, qrCode := none, qrExpiry := none }

/-- The store after checking `demoCheckIn` in at time 3. -/
def demoDb1 : DB := (visitors_checkIn DB.init demoCheckIn 3).1

/-- The row created by that check-in. -/
def demoRec1 : VisitorRecord :=
  { id := 1, record_id := ("REC-1700000000000-ab12cd"), photo_uri := none,
    full_name := ("Jane Doe"), type := some ("visitor"), id_number := none, phone := none,
    company := none, visitor_card_photo_uri := none, id_card_photo_uri := none,
    purpose := none, access_area := none, notes := none, vehicle_plate := none,
    check_in_time := 3, check_out_time := none, status := ("IN"), recorded_by := ("admin"),
    consent_type := some ("checkbox"), consent_signature := none, qr_code := none,
    qr_expiry := none, updated_at := 3 }

/-- The store after additionally checking that visitor out at time 5. -/
def demoOutDb : DB :=
  (visitors_checkOut demoDb1 (some ("REC-1700000000000-ab12cd")) (some ("admin")) 5).1

/-- The checked-out row of `demoOutDb`. -/
def demoOutRec : VisitorRecord :=
  { demoRec1 with status := ("OUT"), check_out_time := some 5 }

lemma demoDb1_reachable : Reachable demoDb1 :=
  Reachable.checkIn DB.init demoCheckIn 3 Reachable.init (by decide)

lemma demoOutDb_reachable : Reachable demoOutDb :=
  Reachable.checkOut demoDb1 (some ("REC-1700000000000-ab12cd")) (some ("admin")) 5
    demoDb1_reachable (by decide)

/-- An fb self-check-in submission with consent granted (used to mint a QR token). -/
def demoFbSubmit : FbSubmitInput :=
  { fullName := some ("Somchai"), type := some ("visitor"), idNumber := none, phone := none,
    company := none, purpose := none, accessArea := none, notes := none, photoData := none,
    lockerNumber := none, consentAccepted := some true }

/-- Store after an fb self-check-in at time 11 (QR token `VMS-SELF-11-qq11aa`). -/
def demoFbDb1 : DB := (fb_selfCheckIn_submit DB.init demoFbSubmit 11 ("qq11aa")).1

/-- Store after the QR-token self-checkout at time 13. -/
def demoFbDb2 : DB :=
  (fb_selfCheckIn_checkOut demoFbDb1 (some (("VMS-SELF-11-qq11aa"))) 13).1

/-- The checked-out row of `demoFbDb2`. -/
def demoFbOutRec : VisitorRecord :=
  { id := 1, record_id := ("SELF-11-qq11aa"), photo_uri := none, full_name := ("Somchai"),
    type := some ("visitor"), id_number := none, phone := none, company := none,
    visitor_card_photo_uri := none, id_card_photo_uri := none, purpose := none,
    access_area := none, notes := none, vehicle_plate := none, check_in_time := 11,
    check_out_time := some 13, status := ("OUT"), recorded_by := ("self-checkin"),
    consent_type := some ("checkbox"), consent_signature := none,
    qr_code := some ("VMS-SELF-11-qq11aa"), qr_expiry := some 86400011, updated_at := 11 }

/-! ### C1 — checkout-time invariant -/

/-- Rows matching the WHERE clause of `visitors.checkOut` leave the statement with status
OUT and checkOutTime = now. -/
lemma checkOut_target_post (db : DB) (recordId userId : Option String) (now : Nat)
    (r : VisitorRecord) (hr : r ∈ (visitors_checkOut db recordId userId now).1.visitors)
    (hrid : some r.record_id = recordId) :
    r.status = ("OUT") ∧ r.check_out_time = some now := by
  have hr2 : r ∈ db.visitors.map (fun r0 =>
      if some r0.record_id = recordId then
        { r0 with status := ("OUT"), check_out_time := some now }
      else r0) := by
    cases userId <;> simpa only [visitors_checkOut] using hr
  rcases List.mem_map.1 hr2 with ⟨r0, hr0, heq⟩
  by_cases hc : some r0.record_id = recordId
  · rw [if_pos hc] at heq
    subst heq
    exact ⟨rfl, rfl⟩
  · rw [if_neg hc] at heq
    subst heq
    exact absurd hrid hc

/-- The same postcondition for `visitors.forceCheckOut`. -/
lemma forceCheckOut_target_post (db : DB) (recordId userId reason : Option String)
    (now : Nat) (r : VisitorRecord)
    (hr : r ∈ (fb_forceCheckOut db recordId userId reason now).1.visitors)
    (hrid : some r.record_id = recordId) :
    r.status = ("OUT") ∧ r.check_out_time = some now := by
  have hr2 : r ∈ db.visitors.map (fun r0 =>
      if some r0.record_id = recordId then
        { r0 with status := ("OUT"), check_out_time := some now }
      else r0) := by
    cases userId <;> simpa only [fb_forceCheckOut] using hr
  rcases List.mem_map.1 hr2 with ⟨r0, hr0, heq⟩
  by_cases hc : some r0.record_id = recordId
  · rw [if_pos hc] at heq
    subst heq
    exact ⟨rfl, rfl⟩
  · rw [if_neg hc] at heq
    subst heq
    exact absurd hrid hc

/-- C1: for every visitor record reachable through the public operations (checkIn,
checkOut, forceCheckOut, checkOutByToken, update, delete and the submit handlers), status
OUT implies a non-null checkOutTime that is ≥ checkInTime; checkIn creates its record with
status IN, null checkOutTime and checkInTime = now; and every operation that sets status
to OUT (checkOut, forceCheckOut, and the token checkout on its success path)
simultaneously sets checkOutTime to the current time on every row it touches. -/
theorem checkout_time_invariant :
    (∀ db : DB, Reachable db → ∀ r ∈ db.visitors, r.status = ("OUT") →
      ¬ r.check_out_time = none ∧ ∃ t, r.check_out_time = some t ∧ r.check_in_time ≤ t)
    ∧ (∀ (db : DB) (inp : CheckInInput) (now : Nat),
        (visitors_checkIn db inp now).2 = true →
        ∃ r, (visitors_checkIn db inp now).1.visitors = db.visitors ++ [r] ∧
          r.status = ("IN") ∧ r.check_out_time = none ∧ r.check_in_time = now)
    ∧ (∀ (db : DB) (recordId userId : Option String) (now : Nat),
        ∀ r ∈ (visitors_checkOut db recordId userId now).1.visitors,
          some r.record_id = recordId →
          r.status = ("OUT") ∧ r.check_out_time = some now)
    ∧ (∀ (db : DB) (recordId userId reason : Option String) (now : Nat),
        ∀ r ∈ (fb_forceCheckOut db recordId userId reason now).1.visitors,
          some r.record_id = recordId →
          r.status = ("OUT") ∧ r.check_out_time = some now)
    ∧ (∀ (db : DB) (qrCode : Option String) (now : Nat),
        (fb_selfCheckIn_checkOut db qrCode now).2.success = true →
        ∀ r ∈ (fb_selfCheckIn_checkOut db qrCode now).1.visitors,
          qrMatch qrCode r = true →
          r.status = ("OUT") ∧ r.check_out_time = some now) := by
  refine ⟨?_, ?_, ?_, ?_, ?_⟩
  · intro db h r hr hout
    rcases ((reachable_storeInv db h).1 r hr).2 hout with ⟨t, ht, hle⟩
    exact ⟨by simp [ht], t, ht, hle⟩
  · intro db inp now hs
    rcases hrid : inp.recordId with _ | rid <;>
      rcases hname : inp.fullName with _ | name <;>
      rcases hrb : inp.recordedBy with _ | rb <;>
      simp only [visitors_checkIn, hrid, hname, hrb] at hs ⊢ <;>
      try exact absurd hs (by decide)
    by_cases hdup : db.visitors.any (fun r => decide (r.record_id = rid)) = true
    · simp [hdup] at hs
    · simp only [hdup, if_false, Bool.false_eq_true]
      exact ⟨_, rfl, rfl, rfl, rfl⟩
  · intro db recordId userId now r hr hrid
    exact checkOut_target_post db recordId userId now r hr hrid
  · intro db recordId userId reason now r hr hrid
    exact forceCheckOut_target_post db recordId userId reason now r hr hrid
  · intro db qrCode now hs r hr hq
    cases hfind : db.visitors.find? (qrMatch qrCode) with
    | none => simp [fb_selfCheckIn_checkOut, hfind] at hs
    | some record =>
        by_cases hst : record.status = ("OUT")
        · simp [fb_selfCheckIn_checkOut, hfind, hst] at hs
        · have hr2 : r ∈ db.visitors.map (fun r0 =>
              if qrMatch qrCode r0 then
                { r0 with status := ("OUT"), check_out_time := some now }
              else r0) := by
            simpa only [fb_selfCheckIn_checkOut, hfind, if_neg hst] using hr
          rcases List.mem_map.1 hr2 with ⟨r0, hr0, heq⟩
          by_cases hc : qrMatch qrCode r0 = true
          · rw [if_pos hc] at heq
            subst heq
            exact ⟨rfl, rfl⟩
          · rw [if_neg hc] at heq
            subst heq
            exact absurd hq hc

/-- C1 witness: the invariant evaluated on a concrete reachable store (check-in at time 3,
check-out at time 5), and the token checkout's now-stamping on the concrete QR scenario
(submit at 11, token checkout at 13). -/
theorem checkout_time_invariant_witness :
    (¬ demoOutRec.check_out_time = none ∧
      ∃ t, demoOutRec.check_out_time = some t ∧ demoOutRec.check_in_time ≤ t) ∧
    (demoFbOutRec.status = ("OUT") ∧ demoFbOutRec.check_out_time = some 13) :=
  ⟨checkout_time_invariant.1 demoOutDb demoOutDb_reachable demoOutRec (by decide)
     (by decide),
   checkout_time_invariant.2.2.2.2 demoFbDb1 (some ("VMS-SELF-11-qq11aa")) 13 (by decide)
     demoFbOutRec (by decide) (by decide)⟩

/-! ### C2 — audit pairing of mutations -/

/-- An update request that supplies none of the nine updatable fields. -/
def emptyUpdate : UpdateInput :=
  { recordId := some ("REC-1700000000000-ab12cd"), userId := some ("admin"),
    fullName := none, idNumber := none, phone := none, company := none, purpose := none,
    accessArea := none, notes := none, vehiclePlate := none, type := none }

/-- A full-backend patch supplying only the phone field, targeting SERIAL id 1. -/
def fbDemoUpdate : FbUpdateInput :=
  { dbId := some 1, fullName := none, type := none, idNumber := none,
    phone := some ("021234567"), company := none, purpose := none, accessArea := none,
    notes := none, vehiclePlate := none, userId := some ("admin") }

/-- C2 counterexample, two failures on the claim's own sources.  (a) A successful
server.js `visitors.update` that supplies no updatable field (on an existing record, with
a valid user) appends zero audit entries, not exactly one — the handler answers success
from the `updates.length > 0` guard's else branch without inserting any EDIT_RECORD row.
(b) A successful README-variant `visitors.delete` / `visitors.update` of the row whose
recordId is `REC-1700000000000-ab12cd` (SERIAL id 1) does append one correctly tagged
entry, but its recordId field is NULL — the INSERT lists only user_id, action, details —
so no DELETE_RECORD/EDIT_RECORD entry matches the affected record's recordId. -/
theorem update_empty_patch_appends_no_audit :
    ((visitors_update demoDb1 emptyUpdate 7).2 = true ∧
      (visitors_update demoDb1 emptyUpdate 7).1.audit = demoDb1.audit ∧
      demoDb1.visitors.any
        (fun r => decide (r.record_id = ("REC-1700000000000-ab12cd"))) = true) ∧
    ((fb_visitors_delete demoDb1 (some 1) (some ("admin"))).2 = true ∧
      ((fb_visitors_delete demoDb1 (some 1) (some ("admin"))).1.audit.any
        (fun e => decide (e.action = ("DELETE_RECORD")) &&
          decide (e.record_id = some ("REC-1700000000000-ab12cd")))) = false ∧
      ((fb_visitors_delete demoDb1 (some 1) (some ("admin"))).1.audit.any
        (fun e => decide (e.action = ("DELETE_RECORD")) &&
          decide (e.record_id = none))) = true) ∧
    ((fb_visitors_update demoDb1 fbDemoUpdate 7).2 = true ∧
      ((fb_visitors_update demoDb1 fbDemoUpdate 7).1.audit.any
        (fun e => decide (e.action = ("EDIT_RECORD")) &&
          decide (e.record_id = some ("REC-1700000000000-ab12cd")))) = false ∧
      ((fb_visitors_update demoDb1 fbDemoUpdate 7).1.audit.any
        (fun e => decide (e.action = ("EDIT_RECORD")) &&
          decide (e.record_id = none))) = true) := by
  decide

/-- C2 (amended): in the server.js service, every successful checkIn, checkOut and delete
appends exactly one audit entry whose recordId equals the affected record's id and whose
action tag is CHECK_IN / CHECK_OUT / DELETE_RECORD respectively; a successful update
appends exactly one matching EDIT_RECORD entry when at least one updatable field is
supplied, and appends none (while still reporting success) when no field is supplied.
In the README full-backend service, update and delete always succeed and each appends
exactly one correctly tagged entry, but with a NULL recordId instead of the affected
record's id. -/
theorem mutation_audit_exactly_one :
    (∀ (db : DB) (inp : CheckInInput) (now : Nat), (visitors_checkIn db inp now).2 = true →
      ∃ rid rb name, inp.recordId = some rid ∧ inp.recordedBy = some rb ∧
        inp.fullName = some name ∧
        (visitors_checkIn db inp now).1.audit
          = db.audit ++ [⟨some rid, rb, ("CHECK_IN"), name ++ (" checked in")⟩] ∧
        ∃ r, (visitors_checkIn db inp now).1.visitors = db.visitors ++ [r] ∧
          r.record_id = rid)
    ∧ (∀ (db : DB) (recordId userId : Option String) (now : Nat),
        (visitors_checkOut db recordId userId now).2 = true →
        ∃ uid, userId = some uid ∧
          (visitors_checkOut db recordId userId now).1.audit
            = db.audit ++ [⟨recordId, uid, ("CHECK_OUT"), ("Visitor checked out")⟩])
    ∧ (∀ (db : DB) (recordId userId : Option String),
        (visitors_delete db recordId userId).2 = true →
        ∃ uid, userId = some uid ∧
          (visitors_delete db recordId userId).1.audit
            = db.audit ++ [⟨recordId, uid, ("DELETE_RECORD"), ("Record deleted")⟩])
    ∧ (∀ (db : DB) (inp : UpdateInput) (now : Nat), (visitors_update db inp now).2 = true →
        inp.hasUpdates = true →
        ∃ uid, inp.userId = some uid ∧
          (visitors_update db inp now).1.audit
            = db.audit ++ [⟨inp.recordId, uid, ("EDIT_RECORD"), ("Record updated")⟩])
    ∧ (∀ (db : DB) (inp : UpdateInput) (now : Nat), (visitors_update db inp now).2 = true →
        inp.hasUpdates = false →
        (visitors_update db inp now).1.audit = db.audit)
    ∧ (∀ (db : DB) (inp : FbUpdateInput) (now : Nat),
        (fb_visitors_update db inp now).2 = true ∧
        ∃ e, (fb_visitors_update db inp now).1.audit = db.audit ++ [e] ∧
          e.action = ("EDIT_RECORD") ∧ e.record_id = none)
    ∧ (∀ (db : DB) (dbId : Option Nat) (userId : Option String),
        (fb_visitors_delete db dbId userId).2 = true ∧
        ∃ e, (fb_visitors_delete db dbId userId).1.audit = db.audit ++ [e] ∧
          e.action = ("DELETE_RECORD") ∧ e.record_id = none) := by
  refine ⟨?_, ?_, ?_, ?_, ?_, ?_, ?_⟩
  · intro db inp now hs
    rcases hrid : inp.recordId with _ | rid <;>
      rcases hname : inp.fullName with _ | name <;>
      rcases hrb : inp.recordedBy with _ | rb <;>
      simp only [visitors_checkIn, hrid, hname, hrb] at hs ⊢ <;>
      try exact absurd hs (by decide)
    by_cases hdup : db.visitors.any (fun r => decide (r.record_id = rid)) = true
    · simp [hdup] at hs
    · simp only [hdup, if_false, Bool.false_eq_true]
      exact ⟨rid, rb, name, rfl, rfl, rfl, rfl, _, rfl, rfl⟩
  · intro db recordId userId now hs
    cases userId with
    | none => exact absurd hs (by simp [visitors_checkOut])
    | some uid => exact ⟨uid, rfl, by simp [visitors_checkOut]⟩
  · intro db recordId userId hs
    cases userId with
    | none => exact absurd hs (by simp [visitors_delete])
    | some uid => exact ⟨uid, rfl, by simp [visitors_delete]⟩
  · intro db inp now hs hu
    rcases huid : inp.userId with _ | uid
    · exact absurd hs (by simp [visitors_update, hu, huid])
    · exact ⟨uid, rfl, by simp [visitors_update, hu, huid]⟩
  · intro db inp now hs hu
    simp [visitors_update, hu]
  · intro db inp now
    exact ⟨rfl, _, rfl, rfl, rfl⟩
  · intro db dbId userId
    exact ⟨rfl, _, rfl, rfl, rfl⟩

/-- C2 witness: the checkIn clause evaluated on the concrete check-in at time 3. -/
theorem mutation_audit_exactly_one_witness :
    ∃ rid rb name, demoCheckIn.recordId = some rid ∧ demoCheckIn.recordedBy = some rb ∧
      demoCheckIn.fullName = some name ∧
      (visitors_checkIn DB.init demoCheckIn 3).1.audit
        = DB.init.audit ++ [⟨some rid, rb, ("CHECK_IN"), name ++ (" checked in")⟩] ∧
      ∃ r, (visitors_checkIn DB.init demoCheckIn 3).1.visitors = DB.init.visitors ++ [r] ∧
        r.record_id = rid :=
  mutation_audit_exactly_one.1 DB.init demoCheckIn 3 (by decide)

/-! ### C3 — double-checkout policy -/

/-- C3 counterexample: with the record already OUT since time 5, a second
`visitors.checkOut` at time 9 reports success (it does not signal AlreadyCheckedOut) and
rewrites checkOutTime from 5 to 9 (it is not a no-op that leaves checkOutTime unchanged);
so the second call satisfies neither the strict nor the lenient policy the claim allows. -/
theorem second_checkout_overwrites_time :
    (visitors_checkOut demoOutDb (some ("REC-1700000000000-ab12cd")) (some ("admin")) 9).2
      = true ∧
    demoOutDb.visitors.map (fun r => r.check_out_time) = [some 5] ∧
    (visitors_checkOut demoOutDb (some ("REC-1700000000000-ab12cd"))
        (some ("admin")) 9).1.visitors.map (fun r => r.check_out_time) = [some 9] := by
  decide

/-- C3 (amended): the repository applies no single double-checkout policy.  checkOut and
forceCheckOut are lenient but overwrite: on a row that is already OUT they succeed again
and reset checkOutTime to the new current time.  checkOutByToken alone is strict: when the
record found by token is already OUT it answers the already-checked-out failure and leaves
the store untouched. -/
theorem double_checkout_policies :
    (∀ (db : DB) (recordId userId : Option String) (now : Nat),
      ∀ r ∈ (visitors_checkOut db recordId userId now).1.visitors,
        some r.record_id = recordId → r.check_out_time = some now)
    ∧ (∀ (db : DB) (recordId userId reason : Option String) (now : Nat),
      ∀ r ∈ (fb_forceCheckOut db recordId userId reason now).1.visitors,
        some r.record_id = recordId → r.check_out_time = some now)
    ∧ (∀ (db : DB) (qrCode : Option String) (now : Nat) (record : VisitorRecord),
        db.visitors.find? (qrMatch qrCode) = some record → record.status = ("OUT") →
        fb_selfCheckIn_checkOut db qrCode now
          = (db, ⟨false, some ("ท่านได้ทำการ Check-out ไปแล้ว"), none, none⟩)) := by
  refine ⟨?_, ?_, ?_⟩
  · intro db recordId userId now r hr hrid
    exact (checkOut_target_post db recordId userId now r hr hrid).2
  · intro db recordId userId reason now r hr hrid
    exact (forceCheckOut_target_post db recordId userId reason now r hr hrid).2
  · intro db qrCode now record hfind hout
    simp [fb_selfCheckIn_checkOut, hfind, hout]

/-- C3 witness: the strict clause evaluated on a concrete store whose QR-token record was
checked out at time 13 — the retry at time 17 fails and changes nothing. -/
theorem double_checkout_policies_witness :
    fb_selfCheckIn_checkOut demoFbDb2 (some ("VMS-SELF-11-qq11aa")) 17
      = (demoFbDb2, ⟨false, some ("ท่านได้ทำการ Check-out ไปแล้ว"), none, none⟩) :=
  double_checkout_policies.2.2 demoFbDb2 (some ("VMS-SELF-11-qq11aa")) 17 demoFbOutRec
    (by decide) (by decide)

/-! ### C4 — token checkout failure modes -/

/-- A complete variant-C self-check-in submission. -/
def demoMemInput : MemSubmitInput :=
  { fullName := some ("Somchai"), type := some ("visitor"), idNumber := some ("1234567890123"),
    phone := some ("0812345678"), company := none, purpose := none, lockerNumber := none,
    department := none, workArea := none }

/-- The in-memory store after that submission at time 3. -/
def demoMem1 : List CRec := (mem_selfCheckIn_submit [] demoMemInput 3 ("aaaaaa")).1

/-- The in-memory store after checking `SELF-3-aaaaaa` out at time 5. -/
def demoMem2 : List CRec :=
  (mem_selfCheckIn_checkOut demoMem1 (some ("SELF-3-aaaaaa")) 5).1

/-- C4 counterexample: the in-memory variant's `selfCheckIn.checkOut` reports success on a
store with no matching record (no NotFound failure), and on a record that is already
checked out it reports success again and overwrites checkOutTime from 5 to 9 — so the
claim's already-OUT guarantees do not hold for this repository's self-service checkout as
a whole. -/
theorem mem_checkout_always_succeeds :
    (mem_selfCheckIn_checkOut [] (some ("SELF-3-aaaaaa")) 5).2 = true ∧
    (mem_selfCheckIn_checkOut demoMem2 (some ("SELF-3-aaaaaa")) 9).2 = true ∧
    demoMem2.map (fun r => r.checkOutTime) = [some 5] ∧
    (mem_selfCheckIn_checkOut demoMem2 (some ("SELF-3-aaaaaa")) 9).1.map
      (fun r => r.checkOutTime) = [some 9] := by
  decide

/-- C4 (amended, restricted to the QR-token checkout of the README full backend, the one
variant that looks records up by token): it answers the not-found failure when no record
matches the token, and on a record already OUT it answers the already-checked-out failure,
never reports success, and leaves the store unmodified.  The in-memory variant's
`selfCheckIn.checkOut` (which looks up by recordId, not by token) has neither guard — see
the counterexample. -/
theorem token_checkout_strict :
    (∀ (db : DB) (qrCode : Option String) (now : Nat),
      db.visitors.find? (qrMatch qrCode) = none →
      fb_selfCheckIn_checkOut db qrCode now
        = (db, ⟨false, some ("ไม่พบข้อมูลการลงทะเบียน"), none, none⟩))
    ∧ (∀ (db : DB) (qrCode : Option String) (now : Nat) (record : VisitorRecord),
        db.visitors.find? (qrMatch qrCode) = some record → record.status = ("OUT") →
        (fb_selfCheckIn_checkOut db qrCode now).1 = db ∧
        (fb_selfCheckIn_checkOut db qrCode now).2.success = false ∧
        (fb_selfCheckIn_checkOut db qrCode now).2.error
          = some ("ท่านได้ทำการ Check-out ไปแล้ว")) := by
  constructor
  · intro db qrCode now hfind
    simp [fb_selfCheckIn_checkOut, hfind]
  · intro db qrCode now record hfind hout
    simp [fb_selfCheckIn_checkOut, hfind, hout]

/-- C4 witness: both clauses at concrete stores — the empty store for not-found, and the
already-checked-out store of the C3 scenario for the strict already-OUT failure. -/
theorem token_checkout_strict_witness :
    (fb_selfCheckIn_checkOut DB.init (some ("VMS-NOPE")) 5
      = (DB.init, ⟨false, some ("ไม่พบข้อมูลการลงทะเบียน"), none, none⟩)) ∧
    ((fb_selfCheckIn_checkOut demoFbDb2 (some ("VMS-SELF-11-qq11aa")) 21).1 = demoFbDb2 ∧
      (fb_selfCheckIn_checkOut demoFbDb2 (some ("VMS-SELF-11-qq11aa")) 21).2.success = false ∧
      (fb_selfCheckIn_checkOut demoFbDb2 (some ("VMS-SELF-11-qq11aa")) 21).2.error
        = some ("ท่านได้ทำการ Check-out ไปแล้ว")) :=
  ⟨token_checkout_strict.1 DB.init (some ("VMS-NOPE")) 5 (by decide),
   token_checkout_strict.2 demoFbDb2 (some ("VMS-SELF-11-qq11aa")) 21 demoFbOutRec
     (by decide) (by decide)⟩

/-! ### C5 — record id assignment and uniqueness -/

/-- A check-in whose caller picked an arbitrary record id. -/
def callerIdCheckIn : CheckInInput :=
  { demoCheckIn with recordId := some ("FRONTDESK-007") }

/-- C5 counterexample: `visitors.checkIn` does not itself assign the record id — it
persists whatever recordId the caller supplied (here `FRONTDESK-007`, which also lacks the
prefix-timestamp-random shape), refuting "every checkIn operation itself assigns the new
record's recordId". -/
theorem checkin_persists_caller_record_id :
    (visitors_checkIn DB.init callerIdCheckIn 3).2 = true ∧
    recordIds (visitors_checkIn DB.init callerIdCheckIn 3).1.visitors
      = [("FRONTDESK-007")] := by
  decide

/-- C5 (amended): only `selfCheckIn.submit` assigns the record id server-side, as
`SELF-<current-time><random suffix>` (`selfRecordId`), returning it and storing it on the
created row; `visitors.checkIn` instead persists the caller-supplied recordId.  At every
reachable store the stored record ids are pairwise distinct — uniqueness is enforced by
the store's UNIQUE constraint (an insert reusing a live id fails), not by the generator. -/
theorem record_id_assignment :
    (∀ (db : DB) (inp : SubmitInput) (now : Nat) (rand : String),
      (selfCheckIn_submit db inp now rand).2.success = true →
      (selfCheckIn_submit db inp now rand).2.recordId = some (selfRecordId now rand) ∧
      ∃ r, (selfCheckIn_submit db inp now rand).1.visitors = db.visitors ++ [r] ∧
        r.record_id = selfRecordId now rand)
    ∧ (∀ (db : DB) (inp : CheckInInput) (now : Nat),
        (visitors_checkIn db inp now).2 = true →
        ∃ rid, inp.recordId = some rid ∧
          ∃ r, (visitors_checkIn db inp now).1.visitors = db.visitors ++ [r] ∧
            r.record_id = rid)
    ∧ (∀ db : DB, Reachable db → (recordIds db.visitors).Nodup) := by
  refine ⟨?_, ?_, ?_⟩
  · intro db inp now rand hs
    rcases hname : inp.fullName with _ | name
    · exact absurd hs (by simp [selfCheckIn_submit, hname])
    · by_cases hdup :
          db.visitors.any (fun r => decide (r.record_id = selfRecordId now rand)) = true
      · exact absurd hs (by simp [selfCheckIn_submit, hname, hdup])
      · refine ⟨?_, ?_⟩
        · simp [selfCheckIn_submit, hname, hdup]
        · simp only [selfCheckIn_submit, hname, hdup, if_false, Bool.false_eq_true]
          exact ⟨_, rfl, rfl⟩
  · intro db inp now hs
    rcases hrid : inp.recordId with _ | rid <;>
      rcases hname : inp.fullName with _ | name <;>
      rcases hrb : inp.recordedBy with _ | rb <;>
      simp only [visitors_checkIn, hrid, hname, hrb] at hs ⊢ <;>
      try exact absurd hs (by decide)
    by_cases hdup : db.visitors.any (fun r => decide (r.record_id = rid)) = true
    · simp [hdup] at hs
    · simp only [hdup, if_false, Bool.false_eq_true]
      exact ⟨rid, rfl, _, rfl, rfl⟩
  · intro db h
    exact (reachable_storeInv db h).2

/-- A self-check-in submission with a name but no consent flag (server.js shape). -/
def somchaiSubmit : SubmitInput :=
  { fullName := some ("Somchai"), type := none, idNumber := none, phone := none,
    company := none, purpose := none, accessArea := none, notes := none, photoData := none,
    lockerNumber := none, consentAccepted := none, visitorType := none }

/-- C5 witness: the submit clause at a concrete submission (time 3, suffix `aaaaaa`) and
the uniqueness clause at the concrete reachable store of the C1 scenario. -/
theorem record_id_assignment_witness :
    ((selfCheckIn_submit DB.init somchaiSubmit 3 ("aaaaaa")).2.recordId
        = some (selfRecordId 3 ("aaaaaa")) ∧
      ∃ r, (selfCheckIn_submit DB.init somchaiSubmit 3 ("aaaaaa")).1.visitors
          = DB.init.visitors ++ [r] ∧
        r.record_id = selfRecordId 3 ("aaaaaa")) ∧
    (recordIds demoOutDb.visitors).Nodup :=
  ⟨record_id_assignment.1 DB.init somchaiSubmit 3 ("aaaaaa") (by decide),
   record_id_assignment.2.2 demoOutDb demoOutDb_reachable⟩

/-! ### C6 — patch semantics of update -/

lemma update_visitors_eq (db : DB) (inp : UpdateInput) (now : Nat)
    (hu : inp.hasUpdates = true) :
    (visitors_update db inp now).1.visitors
      = db.visitors.map (fun r =>
          if some r.record_id = inp.recordId then applyUpdate inp now r else r) := by
  cases huid : inp.userId <;> simp [visitors_update, hu, huid]

lemma update_visitors_eq_of_no_fields (db : DB) (inp : UpdateInput) (now : Nat)
    (hu : ¬ inp.hasUpdates = true) :
    (visitors_update db inp now).1.visitors = db.visitors := by
  simp [visitors_update, hu]

/-- C6: both update endpoints have patch semantics.  For every stored row there is a
corresponding row after the call that keeps recordId, checkInTime, status, checkOutTime
and the other non-updatable columns; rows other than the target are untouched; each of the
nine updatable fields keeps its prior value when not supplied and takes the supplied value
on the target row (server.js variant; the README COALESCE variant likewise keeps every
unsupplied field).  In particular no update call changes recordId, checkInTime or
status. -/
theorem update_patch_semantics :
    (∀ (db : DB) (inp : UpdateInput) (now : Nat) (r : VisitorRecord), r ∈ db.visitors →
      ∃ r2 ∈ (visitors_update db inp now).1.visitors,
        r2.record_id = r.record_id ∧ r2.check_in_time = r.check_in_time ∧
        r2.status = r.status ∧ r2.check_out_time = r.check_out_time ∧ r2.id = r.id ∧
        r2.photo_uri = r.photo_uri ∧ r2.recorded_by = r.recorded_by ∧
        r2.consent_type = r.consent_type ∧ r2.consent_signature = r.consent_signature ∧
        r2.qr_code = r.qr_code ∧ r2.qr_expiry = r.qr_expiry ∧
        (¬ some r.record_id = inp.recordId → r2 = r) ∧
        (inp.fullName = none → r2.full_name = r.full_name) ∧
        (inp.idNumber = none → r2.id_number = r.id_number) ∧
        (inp.phone = none → r2.phone = r.phone) ∧
        (inp.company = none → r2.company = r.company) ∧
        (inp.purpose = none → r2.purpose = r.purpose) ∧
        (inp.accessArea = none → r2.access_area = r.access_area) ∧
        (inp.notes = none → r2.notes = r.notes) ∧
        (inp.vehiclePlate = none → r2.vehicle_plate = r.vehicle_plate) ∧
        (inp.type = none → r2.type = r.type) ∧
        (some r.record_id = inp.recordId → inp.hasUpdates = true →
          (∀ v, inp.fullName = some v → r2.full_name = v) ∧
          (∀ v, inp.idNumber = some v → r2.id_number = some v) ∧
          (∀ v, inp.phone = some v → r2.phone = some v) ∧
          (∀ v, inp.company = some v → r2.company = some v) ∧
          (∀ v, inp.purpose = some v → r2.purpose = some v) ∧
          (∀ v, inp.accessArea = some v → r2.access_area = some v) ∧
          (∀ v, inp.notes = some v → r2.notes = some v) ∧
          (∀ v, inp.vehiclePlate = some v → r2.vehicle_plate = some v) ∧
          (∀ v, inp.type = some v → r2.type = some v)))
    ∧ (∀ (db : DB) (inp : FbUpdateInput) (now : Nat) (r : VisitorRecord), r ∈ db.visitors →
        ∃ r2 ∈ (fb_visitors_update db inp now).1.visitors,
          r2.record_id = r.record_id ∧ r2.check_in_time = r.check_in_time ∧
          r2.status = r.status ∧ r2.check_out_time = r.check_out_time ∧ r2.id = r.id ∧
          (¬ some r.id = inp.dbId → r2 = r) ∧
          (inp.fullName = none → r2.full_name = r.full_name) ∧
          (inp.type = none → r2.type = r.type) ∧
          (inp.idNumber = none → r2.id_number = r.id_number) ∧
          (inp.phone = none → r2.phone = r.phone) ∧
          (inp.company = none → r2.company = r.company) ∧
          (inp.purpose = none → r2.purpose = r.purpose) ∧
          (inp.accessArea = none → r2.access_area = r.access_area) ∧
          (inp.notes = none → r2.notes = r.notes) ∧
          (inp.vehiclePlate = none → r2.vehicle_plate = r.vehicle_plate)) := by
  constructor
  · intro db inp now r hr
    by_cases hu : inp.hasUpdates = true
    · rw [update_visitors_eq db inp now hu]
      by_cases hc : some r.record_id = inp.recordId
      · refine ⟨applyUpdate inp now r, ?_, ?_⟩
        · have h0 := List.mem_map_of_mem (fun r0 =>
            if some r0.record_id = inp.recordId then applyUpdate inp now r0 else r0) hr
          simpa [hc] using h0
        · refine ⟨rfl, rfl, rfl, rfl, rfl, rfl, rfl, rfl, rfl, rfl, rfl,
            fun hcon => absurd hc hcon,
            fun h => by simp [applyUpdate, h],
            fun h => by simp [applyUpdate, h],
            fun h => by simp [applyUpdate, h],
            fun h => by simp [applyUpdate, h],
            fun h => by simp [applyUpdate, h],
            fun h => by simp [applyUpdate, h],
            fun h => by simp [applyUpdate, h],
            fun h => by simp [applyUpdate, h],
            fun h => by simp [applyUpdate, h],
            fun _ _ => ⟨fun v hv => by simp [applyUpdate, hv],
              fun v hv => by simp [applyUpdate, hv],
              fun v hv => by simp [applyUpdate, hv],
              fun v hv => by simp [applyUpdate, hv],
              fun v hv => by simp [applyUpdate, hv],
              fun v hv => by simp [applyUpdate, hv],
              fun v hv => by simp [applyUpdate, hv],
              fun v hv => by simp [applyUpdate, hv],
              fun v hv => by simp [applyUpdate, hv]⟩⟩
      · refine ⟨r, ?_, ?_⟩
        · have h0 := List.mem_map_of_mem (fun r0 =>
            if some r0.record_id = inp.recordId then applyUpdate inp now r0 else r0) hr
          simpa [hc] using h0
        · exact ⟨rfl, rfl, rfl, rfl, rfl, rfl, rfl, rfl, rfl, rfl, rfl,
            fun _ => rfl, fun _ => rfl, fun _ => rfl, fun _ => rfl, fun _ => rfl,
            fun _ => rfl, fun _ => rfl, fun _ => rfl, fun _ => rfl, fun _ => rfl,
            fun hcon _ => absurd hcon hc⟩
    · rw [update_visitors_eq_of_no_fields db inp now hu]
      exact ⟨r, hr, rfl, rfl, rfl, rfl, rfl, rfl, rfl, rfl, rfl, rfl, rfl,
        fun _ => rfl, fun _ => rfl, fun _ => rfl, fun _ => rfl, fun _ => rfl,
        fun _ => rfl, fun _ => rfl, fun _ => rfl, fun _ => rfl, fun _ => rfl,
        fun _ hcon => absurd hcon hu⟩
  · intro db inp now r hr
    by_cases hc : some r.id = inp.dbId
    · refine ⟨fbCoalesce inp now r, ?_, ?_⟩
      · have h0 := List.mem_map_of_mem (fun r0 =>
          if some r0.id = inp.dbId then fbCoalesce inp now r0 else r0) hr
        simpa [fb_visitors_update, hc] using h0
      · exact ⟨rfl, rfl, rfl, rfl, rfl,
          fun hcon => absurd hc hcon,
          fun h => by simp [fbCoalesce, h],
          fun h => by simp [fbCoalesce, h],
          fun h => by simp [fbCoalesce, h],
          fun h => by simp [fbCoalesce, h],
          fun h => by simp [fbCoalesce, h],
          fun h => by simp [fbCoalesce, h],
          fun h => by simp [fbCoalesce, h],
          fun h => by simp [fbCoalesce, h],
          fun h => by simp [fbCoalesce, h]⟩
    · refine ⟨r, ?_, ?_⟩
      · have h0 := List.mem_map_of_mem (fun r0 =>
          if some r0.id = inp.dbId then fbCoalesce inp now r0 else r0) hr
        simpa [fb_visitors_update, hc] using h0
      · exact ⟨rfl, rfl, rfl, rfl, rfl, fun _ => rfl,
          fun _ => rfl, fun _ => rfl, fun _ => rfl, fun _ => rfl, fun _ => rfl,
          fun _ => rfl, fun _ => rfl, fun _ => rfl, fun _ => rfl⟩

/-- A patch that supplies only the phone field. -/
def demoUpdate : UpdateInput := { emptyUpdate with phone := some ("021234567") }

/-- C6 witness: the server.js clause evaluated at a concrete store and a phone-only
patch. -/
theorem update_patch_semantics_witness :
    ∃ r2 ∈ (visitors_update demoDb1 demoUpdate 7).1.visitors,
      r2.record_id = demoRec1.record_id ∧ r2.check_in_time = demoRec1.check_in_time ∧
      r2.status = demoRec1.status ∧ r2.check_out_time = demoRec1.check_out_time ∧
      r2.id = demoRec1.id ∧ r2.photo_uri = demoRec1.photo_uri ∧
      r2.recorded_by = demoRec1.recorded_by ∧ r2.consent_type = demoRec1.consent_type ∧
      r2.consent_signature = demoRec1.consent_signature ∧ r2.qr_code = demoRec1.qr_code ∧
      r2.qr_expiry = demoRec1.qr_expiry ∧
      (¬ some demoRec1.record_id = demoUpdate.recordId → r2 = demoRec1) ∧
      (demoUpdate.fullName = none → r2.full_name = demoRec1.full_name) ∧
      (demoUpdate.idNumber = none → r2.id_number = demoRec1.id_number) ∧
      (demoUpdate.phone = none → r2.phone = demoRec1.phone) ∧
      (demoUpdate.company = none → r2.company = demoRec1.company) ∧
      (demoUpdate.purpose = none → r2.purpose = demoRec1.purpose) ∧
      (demoUpdate.accessArea = none → r2.access_area = demoRec1.access_area) ∧
      (demoUpdate.notes = none → r2.notes = demoRec1.notes) ∧
      (demoUpdate.vehiclePlate = none → r2.vehicle_plate = demoRec1.vehicle_plate) ∧
      (demoUpdate.type = none → r2.type = demoRec1.type) ∧
      (some demoRec1.record_id = demoUpdate.recordId → demoUpdate.hasUpdates = true →
        (∀ v, demoUpdate.fullName = some v → r2.full_name = v) ∧
        (∀ v, demoUpdate.idNumber = some v → r2.id_number = some v) ∧
        (∀ v, demoUpdate.phone = some v → r2.phone = some v) ∧
        (∀ v, demoUpdate.company = some v → r2.company = some v) ∧
        (∀ v, demoUpdate.purpose = some v → r2.purpose = some v) ∧
        (∀ v, demoUpdate.accessArea = some v → r2.access_area = some v) ∧
        (∀ v, demoUpdate.notes = some v → r2.notes = some v) ∧
        (∀ v, demoUpdate.vehiclePlate = some v → r2.vehicle_plate = some v) ∧
        (∀ v, demoUpdate.type = some v → r2.type = some v)) :=
  update_patch_semantics.1 demoDb1 demoUpdate 7 demoRec1 (by decide)

/-! ### C7 — consent validation on self check-in -/

/-- C7 counterexample: the server.js `selfCheckIn.submit` destructures `consentAccepted`
but never checks it — a submission with fullName "Somchai" and no consent flag succeeds
and creates a visitor record, so the store is not unchanged and no consent-required error
is returned. -/
theorem submit_without_consent_creates_record :
    somchaiSubmit.consentAccepted = none ∧
    (selfCheckIn_submit DB.init somchaiSubmit 3 ("aaaaaa")).2.success = true ∧
    (selfCheckIn_submit DB.init somchaiSubmit 3 ("aaaaaa")).2.error = none ∧
    (selfCheckIn_submit DB.init somchaiSubmit 3 ("aaaaaa")).1.visitors.length = 1 := by
  decide

/-- C7 (amended, restricted to the README full-backend variant, the one that implements
the consent check): a submission whose consentAccepted flag is absent (or false) is
rejected with the consent-required message and creates nothing — visitors and audit log
are unchanged.  The server.js variant ignores the flag entirely (see the
counterexample). -/
theorem fb_submit_requires_consent :
    ∀ (db : DB) (inp : FbSubmitInput) (now : Nat) (rand : String),
      inp.consentAccepted ≠ some true →
      (fb_selfCheckIn_submit db inp now rand).1.visitors = db.visitors ∧
      (fb_selfCheckIn_submit db inp now rand).1.audit = db.audit ∧
      (fb_selfCheckIn_submit db inp now rand).2
        = ⟨false, none, some ("กรุณายอมรับข้อตกลงการเก็บข้อมูล"), none, none⟩ := by
  intro db inp now rand h
  refine ⟨?_, ?_, ?_⟩ <;> simp [fb_selfCheckIn_submit, h]

/-- The same Somchai submission in the full-backend input shape, consent flag absent. -/
def fbSomchaiNoConsent : FbSubmitInput :=
  { fullName := some ("Somchai"), type := none, idNumber := none, phone := none,
    company := none, purpose := none, accessArea := none, notes := none, photoData := none,
    lockerNumber := none, consentAccepted := none }

/-- C7 witness: the consent rejection evaluated on the fresh store. -/
theorem fb_submit_requires_consent_witness :
    (fb_selfCheckIn_submit DB.init fbSomchaiNoConsent 3 ("aaaaaa")).1.visitors
        = DB.init.visitors ∧
    (fb_selfCheckIn_submit DB.init fbSomchaiNoConsent 3 ("aaaaaa")).1.audit
        = DB.init.audit ∧
    (fb_selfCheckIn_submit DB.init fbSomchaiNoConsent 3 ("aaaaaa")).2
        = ⟨false, none, some ("กรุณายอมรับข้อตกลงการเก็บข้อมูล"), none, none⟩ :=
  fb_submit_requires_consent DB.init fbSomchaiNoConsent 3 ("aaaaaa") (by decide)

/-! ### C8 — settings.get coercion of retentionDays -/

/-- C8 counterexample: with "abc" stored under retentionDays, `parseInt("abc" || '90')`
is `parseInt("abc")` = NaN (`none` here, serialised as null) — not an integer and not the
documented default 90, refuting "the returned retentionDays is an integer … the default
(90) when … parsing fails". -/
theorem retention_days_nan :
    (settings_get [(("retentionDays"), ("abc"))]).retentionDays = none ∧
    ¬ (settings_get [(("retentionDays"), ("abc"))]).retentionDays = some 90 := by
  decide

/-- C8 (amended): `settings.get` never throws on any stored value (the handler is total),
and retentionDays is `parseInt(stored || '90')`: 90 when the key is unset or stores the
empty string (the `||` fallback fires only on falsy values), the leading-integer parse of
the stored string when it has one, and NaN — not the default — when a non-empty stored
value has no parseable leading integer. -/
theorem settings_get_retention_days :
    ∀ rows : List (String × String),
      (settingsLookup rows ("retentionDays") = none →
        (settings_get rows).retentionDays = some 90)
      ∧ (settingsLookup rows ("retentionDays") = some ("") →
        (settings_get rows).retentionDays = some 90)
      ∧ (∀ s, settingsLookup rows ("retentionDays") = some s → ¬ s = ("") →
          (settings_get rows).retentionDays = jsParseInt s) := by
  intro rows
  refine ⟨?_, ?_, ?_⟩
  · intro h
    simp only [settings_get, jsOrDefault, h]
    decide
  · intro h
    simp only [settings_get, jsOrDefault, h, if_pos rfl]
    decide
  · intro s hs hne
    simp only [settings_get, jsOrDefault, hs, if_neg hne]

/-- C8 witness: the unset-key default and a parseable stored value, evaluated
concretely. -/
theorem settings_get_retention_days_witness :
    ((settings_get []).retentionDays = some 90) ∧
    ((settings_get [(("retentionDays"), ("120"))]).retentionDays = jsParseInt ("120")) :=
  ⟨(settings_get_retention_days []).1 (by decide),
   (settings_get_retention_days [(("retentionDays"), ("120"))]).2.2 ("120")
     (by decide) (by decide)⟩

/-! ### C9 — idempotent error-log resolution -/

/-- C9: resolving an entry twice raises no error on either call (both UPDATEs are
unconditional and the handler always answers success), deletes nothing, and leaves every
entry with the given id resolved with resolvedBy = "b" and resolvedAt stamped by the
second call — the second call simply re-writes the resolution fields. -/
theorem errorlog_resolve_idempotent :
    ∀ (logs : List ErrorLogEntry) (id : Option Nat) (t1 t2 : Nat),
      (errorLog_resolve logs id (some ("a")) t1).2 = true ∧
      (errorLog_resolve (errorLog_resolve logs id (some ("a")) t1).1 id (some ("b")) t2).2
        = true ∧
      ((errorLog_resolve (errorLog_resolve logs id (some ("a")) t1).1 id
          (some ("b")) t2).1).length = logs.length ∧
      ∀ e ∈ (errorLog_resolve (errorLog_resolve logs id (some ("a")) t1).1 id
          (some ("b")) t2).1,
        some e.eid = id →
          e.resolved = true ∧ e.resolved_by = some ("b") ∧ e.resolved_at = some t2 := by
  intro logs id t1 t2
  refine ⟨rfl, rfl, by simp [errorLog_resolve], ?_⟩
  intro e he hid
  rcases List.mem_map.1 he with ⟨e1, he1, heq⟩
  by_cases hc : some e1.eid = id
  · rw [if_pos hc] at heq
    subst heq
    exact ⟨rfl, rfl, rfl⟩
  · rw [if_neg hc] at heq
    subst heq
    exact absurd hid hc

/-- A concrete unresolved error-log entry. -/
def demoErr : ErrorLogEntry :=
  { eid := 1, etype := ("crash"), message := ("boom"), source := ("app"), metadata := none,
    resolved := false, resolved_at := none, resolved_by := none }

/-- The entry after `resolve(1, "a")` at time 4 and `resolve(1, "b")` at time 6. -/
def demoErrResolved : ErrorLogEntry :=
  { eid := 1, etype := ("crash"), message := ("boom"), source := ("app"), metadata := none,
    resolved := true, resolved_at := some 6, resolved_by := some ("b") }

/-- C9 witness: the double resolution evaluated on a one-entry log. -/
theorem errorlog_resolve_idempotent_witness :
    demoErrResolved.resolved = true ∧ demoErrResolved.resolved_by = some ("b") ∧
      demoErrResolved.resolved_at = some 6 :=
  (errorlog_resolve_idempotent [demoErr] (some 1) 4 6).2.2.2 demoErrResolved (by decide)
    (by decide)

/-! ### C10 — byId conflates NotFound and StorageError -/

/-- C10: `visitors.byId` answers null both when the store query fails (the catch branch)
and when no row matches, and any non-null answer is a row matching the requested id — so
for every input the result is the matching record or null, never an error payload, and a
caller cannot tell NotFound from StorageError. -/
theorem byId_null_on_error_or_missing :
    (∀ recordId : Option String, visitors_byId none recordId = none)
    ∧ (∀ (rows : List VisitorRecord) (recordId : Option String),
        (∀ r ∈ rows, ¬ some r.record_id = recordId) →
        visitors_byId (some rows) recordId = none)
    ∧ (∀ (q : Option (List VisitorRecord)) (recordId : Option String) (r : VisitorRecord),
        visitors_byId q recordId = some r →
        some r.record_id = recordId ∧ ∃ rows, q = some rows ∧ r ∈ rows) := by
  refine ⟨fun _ => rfl, ?_, ?_⟩
  · intro rows recordId h
    have hf : rows.find? (fun r => decide (some r.record_id = recordId)) = none := by
      rw [List.find?_eq_none]
      intro r hr
      simpa using h r hr
    simp [visitors_byId, hf]
  · intro q recordId r hq
    cases q with
    | none => simp [visitors_byId] at hq
    | some rows =>
        cases hf : rows.find? (fun r => decide (some r.record_id = recordId)) with
        | none => simp [visitors_byId, hf] at hq
        | some r0 =>
            simp only [visitors_byId, hf, Option.some.injEq] at hq
            subst hq
            have hp : some r0.record_id = recordId := by
              have h1 := List.find?_some hf
              simpa using h1
            exact ⟨hp, rows, rfl, List.mem_of_find?_eq_some hf⟩

/-- C10 witness: the failed-query branch and a non-matching store, evaluated
concretely. -/
theorem byId_null_on_error_or_missing_witness :
    (visitors_byId none (some ("REC-1700000000000-ab12cd")) = none) ∧
    (visitors_byId (some demoDb1.visitors) (some ("UNKNOWN-ID")) = none) :=
  ⟨byId_null_on_error_or_missing.1 (some ("REC-1700000000000-ab12cd")),
   byId_null_on_error_or_missing.2.1 demoDb1.visitors (some ("UNKNOWN-ID")) (by decide)⟩

end HotelVMS
